import Mathlib

/-
Verification of the gnv-city-meetings pipeline core against its
specification.  The definitions below are a shallow embedding of the
JavaScript sources:

  * src/db/init.js                — meetings table and updateMeetingState
  * src/unnamed/part_016          — WORKFLOW_STEPS transition table
  * src/unnamed/part_017          — advanceWorkflow / handleWorkflowFailure
  * src/discover.js               — runDiscovery insert/enqueue loop
  * src/unnamed/part_009          — extract worker (formatTime, agenda join,
                                    generateYouTubeChapters, processExtractJob)
  * src/workers/upload-worker.js  — upload / diarize / download workers
  * src/storage/paths.js          — pathFor and the meeting-id sanitizer
  * src/fileserver.js             — upload endpoint validation

Stateful operations are modelled as pure functions that return the list of
store/queue effects they perform; external I/O (HTTP fetches, subprocesses,
the video host) is passed in as an explicit result parameter.
-/

namespace GnvMeetings

/-! ## JavaScript values and truthiness -/

/-- A JavaScript value as it appears in row fields and patch objects.
`vobj` is an opaque non-null object (e.g. a parsed agenda blob). -/
inductive JSValue where
  | vnull
  | vundefined
  | vstr (s : String)
  | vnum (n : Int)
  | vbool (b : Bool)
  | vobj (tag : String)
deriving DecidableEq, Repr

/-- JavaScript truthiness: null, undefined, the empty string, 0 and false
are falsy; everything else is truthy. -/
def JSValue.truthy : JSValue → Bool
  | .vnull => false
  | .vundefined => false
  | .vstr s => s != ""
  | .vnum n => n != 0
  | .vbool b => b
  | .vobj _ => true

/-- JSON.stringify as used on `additionalData.agenda_data` in
updateMeetingState (src/db/init.js).  Only its type matters to the claims:
it turns a JS value into the string stored in the agenda_data column. -/
def jsonStringify : JSValue → JSValue
  | .vstr s => .vstr ("\"" ++ s ++ "\"")
  | .vnum n => .vstr (toString n)
  | .vbool b => .vstr (toString b)
  | .vnull => .vstr "null"
  | .vundefined => .vundefined
  | .vobj tag => .vstr tag

/-! ## State store (src/db/init.js) -/

/-- One row of the `meetings` table, with exactly the columns of the
CREATE TABLE statement in src/db/init.js.  There is no column for the
phase at which a failure occurred. -/
structure MeetingRow where
  id : String
  state : String
  title : String
  date : String
  meeting_url : JSValue
  has_video : JSValue
  video_path : JSValue
  agenda_data : JSValue
  chapters_text : JSValue
  youtube_url : JSValue
  error : JSValue
  created_at : String
  updated_at : String
deriving DecidableEq, Repr

/-- updateMeetingState from src/db/init.js.  Sets `state` and
`updated_at`, and conditionally (on JS truthiness) the five recognized
patch keys video_path, agenda_data (JSON-stringified), chapters_text,
youtube_url and error.  Every other key of `additionalData` is ignored.
`now` stands for CURRENT_TIMESTAMP. -/
def updateMeetingState (row : MeetingRow) (state : String)
    (additionalData : String → JSValue) (now : String) : MeetingRow :=
  { row with
    state := state
    updated_at := now
    video_path :=
      if (additionalData "video_path").truthy then additionalData "video_path"
      else row.video_path
    agenda_data :=
      if (additionalData "agenda_data").truthy then jsonStringify (additionalData "agenda_data")
      else row.agenda_data
    chapters_text :=
      if (additionalData "chapters_text").truthy then additionalData "chapters_text"
      else row.chapters_text
    youtube_url :=
      if (additionalData "youtube_url").truthy then additionalData "youtube_url"
      else row.youtube_url
    error :=
      if (additionalData "error").truthy then additionalData "error"
      else row.error }

/-- The patch object `{ error: errorMessage, failed_at_state: currentState }`
passed by handleWorkflowFailure (src/unnamed/part_017, lines 70-73). -/
def failurePatch (errorMessage currentState : String) : String → JSValue := fun k =>
  if k = "error" then .vstr errorMessage
  else if k = "failed_at_state" then .vstr currentState
  else .vundefined

/-- Effect of handleWorkflowFailure on the stored row: it calls
updateMeetingState with state FAILED and the failure patch. -/
def handleWorkflowFailureRow (row : MeetingRow) (currentState errorMessage now : String) :
    MeetingRow :=
  updateMeetingState row "FAILED" (failurePatch errorMessage currentState) now

/-- A concrete meeting row used to instantiate theorems. -/
def sampleRow : MeetingRow :=
  { id := "m1", state := "DOWNLOADED", title := "City Commission"
    date := "2025/06/05 7:00 PM"
    meeting_url := .vstr "https://example.test/Meeting.aspx?Id=m1"
    has_video := .vnum 1
    video_path := .vnull, agenda_data := .vnull, chapters_text := .vnull
    youtube_url := .vnull, error := .vnull
    created_at := "t0", updated_at := "t0" }

/-! ## Workflow orchestrator (src/unnamed/part_016 and part_017) -/

/-- One row of the WORKFLOW_STEPS table (src/unnamed/part_016). -/
structure WorkflowStep where
  nextState : Option String
  queue : Option String
deriving DecidableEq, Repr

/-- The WORKFLOW_STEPS transition table from src/unnamed/part_016.
`queue` is the queue whose worker performs the transition out of the
given state; terminal states have neither a next state nor a queue. -/
def WORKFLOW_STEPS : String → Option WorkflowStep := fun s =>
  if s = "DISCOVERED" then some ⟨some "DOWNLOADED", some "download"⟩
  else if s = "DOWNLOADED" then some ⟨some "EXTRACTED", some "extract"⟩
  else if s = "EXTRACTED" then some ⟨some "UPLOADED", some "upload"⟩
  else if s = "UPLOADED" then some ⟨some "DIARIZED", some "diarize"⟩
  else if s = "DIARIZED" then some ⟨none, none⟩
  else if s = "FAILED" then some ⟨none, none⟩
  else none

/-- An observable effect on the state store or the job queues. -/
inductive Effect where
  | update (meetingId state : String) (patch : String → JSValue)
  | enqueue (queue jobId meetingId : String)
  | insertRow (meetingId : String)
  | writeArtifact (kind meetingId : String)

/-- The meeting id an effect concerns. -/
def Effect.concernsId : Effect → String
  | .update m _ _ => m
  | .enqueue _ _ m => m
  | .insertRow m => m
  | .writeArtifact _ m => m

/-- advanceWorkflow from src/unnamed/part_017 (lines 11-51): look up the
transition row for `currentState`; if it has a next state, write that
state together with `additionalData` to the store in one update, then,
if the next state's own row names a queue, enqueue `{meetingId}` there
under job id `"<queue>-<meetingId>"`.  Unknown states throw. -/
def advanceWorkflow (meetingId currentState : String)
    (additionalData : String → JSValue) : Except String (List Effect) :=
  match WORKFLOW_STEPS currentState with
  | none => .error ("Unknown workflow state: " ++ currentState)
  | some step =>
    match step.nextState with
    | none => .ok []
    | some ns =>
      let upd := Effect.update meetingId ns additionalData
      match WORKFLOW_STEPS ns with
      | none => .ok [upd]
      | some nextStep =>
        match nextStep.queue with
        | none => .ok [upd]
        | some q => .ok [upd, Effect.enqueue q (q ++ "-" ++ meetingId) meetingId]

/-- handleWorkflowFailure from src/unnamed/part_017 (lines 57-78) as an
effect trace: one store update setting state FAILED with the failure
patch. -/
def handleWorkflowFailure (meetingId currentState errorMessage : String) : List Effect :=
  [Effect.update meetingId "FAILED" (failurePatch errorMessage currentState)]

/-! ## Discovery (src/discover.js) -/

/-- A meeting as produced by fetchMeetingsWithVideo after the HasVideo
filter and field mapping (src/discover.js, lines 53-61). -/
structure FetchedMeeting where
  id : String
  title : String
  date : String
  meeting_url : String
deriving DecidableEq, Repr

/-- getMeeting from src/db/init.js: SELECT * FROM meetings WHERE id = ?. -/
def getMeetingDb (db : List MeetingRow) (meetingId : String) : Option MeetingRow :=
  db.find? (fun r => r.id == meetingId)

/-- The row created for a newly discovered meeting: insertMeeting supplies
id, title, date, meeting_url, has_video and the schema defaults state
DISCOVERED and NULL artifact columns (src/db/init.js, lines 56-65). -/
def newMeetingRow (m : FetchedMeeting) (now : String) : MeetingRow :=
  { id := m.id, state := "DISCOVERED", title := m.title, date := m.date
    meeting_url := .vstr m.meeting_url, has_video := .vnum 1
    video_path := .vnull, agenda_data := .vnull, chapters_text := .vnull
    youtube_url := .vnull, error := .vnull
    created_at := now, updated_at := now }

/-- insertMeeting from src/db/init.js: INSERT OR IGNORE — a row whose id
is already present leaves the table unchanged. -/
def insertMeeting (db : List MeetingRow) (m : FetchedMeeting) (now : String) :
    List MeetingRow :=
  match getMeetingDb db m.id with
  | some _ => db
  | none => db ++ [newMeetingRow m now]

/-- The per-meeting loop of runDiscovery (src/discover.js, lines 90-118):
for each fetched meeting, look it up; if absent, insert it and enqueue a
job on the download queue under id `"download-<meetingId>"`; if present,
silently skip it.  Returns the final table and the effect trace. -/
def runDiscovery (db : List MeetingRow) (ms : List FetchedMeeting) (now : String) :
    List MeetingRow × List Effect :=
  match ms with
  | [] => (db, [])
  | m :: rest =>
    match getMeetingDb db m.id with
    | some _ => runDiscovery db rest now
    | none =>
      let db1 := insertMeeting db m now
      let res := runDiscovery db1 rest now
      (res.1,
        Effect.insertRow m.id
          :: Effect.enqueue "download" ("download-" ++ m.id) m.id
          :: res.2)

/-! ## Agenda extraction and chapter generation (src/unnamed/part_009) -/

/-- Left-pad a number to two digits, as toString().padStart(2, '0'). -/
def pad2 (n : Nat) : String :=
  if n < 10 then "0" ++ toString n else toString n

/-- formatTime from src/unnamed/part_009 (lines 16-29).  The source guard
is `if (!ms) return null`, so 0 milliseconds — a falsy number — yields
null rather than "00:00:00". -/
def formatTime (ms : Nat) : Option String :=
  if ms = 0 then none
  else
    let totalSeconds := ms / 1000
    let hours := totalSeconds / 3600
    let minutes := totalSeconds % 3600 / 60
    let seconds := totalSeconds % 60
    some (pad2 hours ++ ":" ++ pad2 minutes ++ ":" ++ pad2 seconds)

/-- formatMeetingDate: date.split(' ')[0].replace(/\//g, '-') — the
characters before the first space, with slashes replaced by dashes. -/
def formatMeetingDate (date : String) : String :=
  String.mk ((date.data.takeWhile (fun c => c != ' ')).map
    (fun c => if c = '/' then '-' else c))

/-- A bookmark parsed from the agenda page's `Bookmarks: [...]` literal;
times are milliseconds from video start. -/
structure Bookmark where
  AgendaItemId : Nat
  TimeStart : Nat
  TimeEnd : Nat
deriving DecidableEq, Repr

/-- An agenda item as built by extractAgendaWithTimestamps. -/
structure AgendaItem where
  id : Nat
  title : String
  timeStart : Option Nat
  timeEnd : Option Nat
  startTime : Option String
  endTime : Option String
  durationSeconds : Option Nat
deriving DecidableEq, Repr

/-- The item record pushed by extractAgendaWithTimestamps (src/unnamed/
part_009, lines 117-141): the first bookmark whose AgendaItemId equals
the item id is attached; otherwise every timing field is null. -/
def mkAgendaItem (bookmarks : List Bookmark) (itemId : Nat) (itemTitle : String) :
    AgendaItem :=
  match bookmarks.find? (fun b => b.AgendaItemId == itemId) with
  | some b =>
    { id := itemId, title := itemTitle
      timeStart := some b.TimeStart, timeEnd := some b.TimeEnd
      startTime := formatTime b.TimeStart, endTime := formatTime b.TimeEnd
      durationSeconds := some ((b.TimeEnd - b.TimeStart) / 1000) }
  | none =>
    { id := itemId, title := itemTitle
      timeStart := none, timeEnd := none
      startTime := none, endTime := none, durationSeconds := none }

/-- Stable insertion into a sorted list: x goes before the first element
y with `le x y`. -/
def insertSorted (le : α → α → Bool) (x : α) : List α → List α
  | [] => [x]
  | y :: ys => if le x y then x :: y :: ys else y :: insertSorted le x ys

/-- Stable sort, modelling JavaScript Array.prototype.sort with a
consistent comparator (stable since ES2019). -/
def sortBy (le : α → α → Bool) : List α → List α
  | [] => []
  | x :: xs => insertSorted le x (sortBy le xs)

/-- The sort key of the comparator
`(a.timeStart || Infinity) - (b.timeStart || Infinity)` in
extractAgendaWithTimestamps (src/unnamed/part_009, line 144): `none`
stands for Infinity.  A timeStart of 0 is falsy, so it also maps to
Infinity. -/
def falsyKey (i : AgendaItem) : Option Nat :=
  match i.timeStart with
  | some t => if t = 0 then none else some t
  | none => none

/-- Comparator order induced by falsyKey; two Infinity keys compare as
equal (the JS comparator returns NaN there, treated as 0). -/
def leFalsy (a b : AgendaItem) : Bool :=
  match falsyKey a, falsyKey b with
  | some x, some y => decide (x ≤ y)
  | some _, none => true
  | none, some _ => false
  | none, none => true

/-- The join-and-sort core of extractAgendaWithTimestamps: pair each
parsed (id, title) with its bookmark, then sort with the falsy-key
comparator. -/
def extractAgendaWithTimestamps (bookmarks : List Bookmark)
    (items : List (Nat × String)) : List AgendaItem :=
  sortBy leFalsy (items.map (fun p => mkAgendaItem bookmarks p.1 p.2))

/-- String interpolation of a nullable string: `${null}` renders as
"null" in JavaScript. -/
def jsShow : Option String → String
  | none => "null"
  | some s => s

/-- One chapter line: `${item.startTime} ${item.title}\n`. -/
def chapterLine (item : AgendaItem) : String :=
  jsShow item.startTime ++ " " ++ item.title ++ "\n"

/-- The chapter loop of generateYouTubeChapters: a synthetic Pre-meeting
line is emitted before the first item when that item's startTime is not
the string "00:00:00". -/
def chapterBody : List AgendaItem → String
  | [] => ""
  | first :: rest =>
    (if first.startTime = some "00:00:00" then "" else "00:00:00 Pre-meeting\n")
      ++ chapterLine first ++ String.join (rest.map chapterLine)

/-- Numeric comparator a.timeStart - b.timeStart used inside
generateYouTubeChapters on the already-filtered items. -/
def leNum (a b : AgendaItem) : Bool :=
  decide (a.timeStart.getD 0 ≤ b.timeStart.getD 0)

/-- generateYouTubeChapters from src/unnamed/part_009 (lines 160-191):
filter the items with a non-null timeStart, sort them ascending, and
emit the title/date header, a blank line, "Chapters:" and one line per
item, with the Pre-meeting rule applied to the first item. -/
def generateYouTubeChapters (meetingTitle date : String)
    (agendaItems : List AgendaItem) : String :=
  let chaptersItems := sortBy leNum (agendaItems.filter (fun i => i.timeStart.isSome))
  if chaptersItems.isEmpty then ""
  else
    let formattedDate := formatMeetingDate date
    meetingTitle ++ " - " ++ formattedDate ++ "\n\n" ++ "Chapters:\n"
      ++ chapterBody chaptersItems

/-! ## Storage paths and the meeting-id sanitizer (src/storage/paths.js) -/

/-- Membership in the regex class [a-zA-Z0-9]. -/
def isAlphaNumChar (c : Char) : Bool :=
  ('a' ≤ c && c ≤ 'z') || ('A' ≤ c && c ≤ 'Z') || ('0' ≤ c && c ≤ '9')

/-- The sanitizer applied to meetingId before any artifact path is built:
`meetingId.replace(/[^a-zA-Z0-9]/g, '_')` (src/storage/paths.js,
line 37). -/
def sanitize (meetingId : String) : String :=
  String.mk (meetingId.data.map (fun c => if isAlphaNumChar c then c else '_'))

/-- Membership in the regex class [A-Za-z0-9_]. -/
def isWordChar (c : Char) : Bool :=
  isAlphaNumChar c || c = '_'

/-- A string matches ^[A-Za-z0-9_]+$ — nonempty and all word characters. -/
def matchesWordPlus (s : String) : Prop :=
  s.data ≠ [] ∧ ∀ c ∈ s.data, isWordChar c = true

instance (s : String) : Decidable (matchesWordPlus s) := by
  unfold matchesWordPlus; infer_instance

/-- The values of the StorageTypes enumeration (src/storage/paths.js,
lines 19-28). -/
def StorageTypesList : List String :=
  ["raw_video", "raw_audio", "raw_agenda", "raw_transcript",
   "derived_chapters", "derived_audio", "derived_diarized", "derived_metadata"]

/-- pathFor from src/storage/paths.js (lines 36-68), parameterized by the
configured STORAGE_ROOT; an unknown storage type throws. -/
def pathFor (storageRoot ty meetingId : String) : Except String String :=
  let safeId := sanitize meetingId
  let rawDir := storageRoot ++ "/raw"
  let derivedDir := storageRoot ++ "/derived"
  if ty = "raw_video" then .ok (rawDir ++ "/videos/" ++ safeId ++ ".mp4")
  else if ty = "raw_audio" then .ok (rawDir ++ "/audio/" ++ safeId ++ ".mp3")
  else if ty = "raw_agenda" then .ok (rawDir ++ "/agendas/" ++ safeId ++ "_agenda.html")
  else if ty = "raw_transcript" then
    .ok (rawDir ++ "/transcripts/" ++ safeId ++ "_transcript.txt")
  else if ty = "derived_chapters" then
    .ok (derivedDir ++ "/chapters/" ++ safeId ++ "_chapters.txt")
  else if ty = "derived_audio" then .ok (derivedDir ++ "/audio/" ++ safeId ++ ".m4a")
  else if ty = "derived_diarized" then
    .ok (derivedDir ++ "/diarized/" ++ safeId ++ "_diarized.json")
  else if ty = "derived_metadata" then
    .ok (derivedDir ++ "/metadata/" ++ safeId ++ "_metadata.json")
  else .error ("Unknown storage type: " ++ ty)

/-! ## File server upload endpoint (src/fileserver.js) -/

/-- isValidStorageType: membership in the StorageTypes values. -/
def isValidStorageType (ty : String) : Bool :=
  StorageTypesList.contains ty

/-- Membership in the regex class [a-zA-Z0-9_-]. -/
def isMeetingIdChar (c : Char) : Bool :=
  isAlphaNumChar c || c = '_' || c = '-'

/-- isValidMeetingId from src/fileserver.js (lines 16-20): rejects the
empty string (falsy), strings longer than 100 characters, and any string
with a character outside [a-zA-Z0-9_-]. -/
def isValidMeetingId (meetingId : String) : Bool :=
  if meetingId.data.length = 0 then false
  else if meetingId.data.length > 100 then false
  else meetingId.data.all isMeetingIdChar

/-- path.relative(STORAGE_ROOT, destPath) for a destination under the
root: strip the root plus separator prefix. -/
def relativeTo (root p : String) : String :=
  if p.take (root.length + 1) = root ++ "/" then p.drop (root.length + 1) else p

/-- The JSON body of an upload response. -/
inductive UploadResponse where
  | errorResp (msg : String)
  | successResp (relPath : String)
deriving DecidableEq, Repr

/-- Outcome of one POST /upload/:type/:meetingId request: HTTP status,
response body, whether the temporary upload file was unlinked, and the
destination written under the storage root (if any). -/
structure UploadOutcome where
  status : Nat
  body : UploadResponse
  tempUnlinked : Bool
  written : Option String
deriving DecidableEq, Repr

/-- The POST /upload/:type/:meetingId handler from src/fileserver.js
(lines 53-89).  `pathSafe` stands for isPathSafe, the resolved-path
containment check against the storage root.  Rejections unlink the
multer temp file and write nothing; on success the temp file is renamed
to the pathFor destination and the response carries the root-relative
path. -/
def uploadHandler (storageRoot : String) (pathSafe : String → Bool)
    (ty meetingId : String) : UploadOutcome :=
  if isValidStorageType ty = false then
    { status := 400, body := .errorResp "Invalid storage type"
      tempUnlinked := true, written := none }
  else if isValidMeetingId meetingId = false then
    { status := 400, body := .errorResp "Invalid meeting ID format"
      tempUnlinked := true, written := none }
  else
    match pathFor storageRoot ty meetingId with
    | .error _ =>
      { status := 500, body := .errorResp "Upload failed"
        tempUnlinked := true, written := none }
    | .ok destPath =>
      if pathSafe destPath = false then
        { status := 403, body := .errorResp "Access denied"
          tempUnlinked := true, written := none }
      else
        { status := 200, body := .successResp (relativeTo storageRoot destPath)
          tempUnlinked := false, written := some destPath }

/-! ## Phase workers (src/unnamed/part_009 and src/workers/upload-worker.js) -/

/-- The error thrown when getMeeting returns nothing. -/
def notFoundMsg (meetingId : String) : String :=
  "Meeting " ++ meetingId ++ " not found"

/-- The error thrown by the diarize worker's phase precondition
(src/workers/upload-worker.js, processDiarizeJob). -/
def notUploadedMsg (meetingId state : String) : String :=
  "Meeting " ++ meetingId ++ " not in UPLOADED state (current: " ++ state ++ ")"

/-- The patch passed to advanceWorkflow by the download worker:
`{ video_path: result.outputPath }`. -/
def downloadPatch (outputPath : String) : String → JSValue := fun k =>
  if k = "video_path" then .vstr outputPath else .vundefined

/-- The patch passed to advanceWorkflow by the extract worker:
`{ agenda_data: result.agendaData, chapters_text: result.chaptersText }`. -/
def extractPatch (chaptersText : String) : String → JSValue := fun k =>
  if k = "agenda_data" then .vobj "agendaData"
  else if k = "chapters_text" then .vstr chaptersText
  else .vundefined

/-- The patch passed to advanceWorkflow by the upload worker:
`{ youtube_url, youtube_video_id, playlist_results }`. -/
def uploadPatch (url videoId : String) : String → JSValue := fun k =>
  if k = "youtube_url" then .vstr url
  else if k = "youtube_video_id" then .vstr videoId
  else if k = "playlist_results" then .vobj "playlistResults"
  else .vundefined

/-- The empty patch (advanceWorkflow's default additionalData). -/
def emptyPatch : String → JSValue := fun _ => .vundefined

/-- processDownloadJob (download worker, expects DISCOVERED): load the
meeting (absence throws), run the external downloader (`dlResult`),
write RAW_VIDEO and advance from DISCOVERED; any error triggers
handleWorkflowFailure and is rethrown to the queue.  The worker performs
no check of the meeting's phase. -/
def processDownloadJob (meetingId : String) (meeting : Option MeetingRow)
    (dlResult : Except String Unit) : List Effect × Option String :=
  match meeting with
  | none =>
    let e := notFoundMsg meetingId
    (handleWorkflowFailure meetingId "DISCOVERED" e, some e)
  | some _m =>
    match dlResult with
    | .error e => (handleWorkflowFailure meetingId "DISCOVERED" e, some e)
    | .ok _ =>
      let writes := [Effect.writeArtifact "raw_video" meetingId]
      match advanceWorkflow meetingId "DISCOVERED" (downloadPatch "raw_video_path") with
      | .ok advEffs => (writes ++ advEffs, none)
      | .error e => (writes ++ handleWorkflowFailure meetingId "DISCOVERED" e, some e)

/-- The agenda data produced by extractAgendaWithTimestamps. -/
structure AgendaData where
  agendaItems : List AgendaItem
deriving DecidableEq, Repr

/-- processExtractJob (extract worker, expects DOWNLOADED): load the
meeting (absence throws inside extractMeetingData), fetch and join the
agenda (`agendaResult`), generate chapters, write DERIVED_CHAPTERS and
DERIVED_METADATA, attempt audio extraction (whose failure is swallowed),
and advance from DOWNLOADED; any other error triggers
handleWorkflowFailure and is rethrown.  The worker performs no check of
the meeting's phase. -/
def processExtractJob (meetingId : String) (meeting : Option MeetingRow)
    (agendaResult : Except String AgendaData) (audioResult : Except String Unit) :
    List Effect × Option String :=
  match meeting with
  | none =>
    let e := notFoundMsg meetingId
    (handleWorkflowFailure meetingId "DOWNLOADED" e, some e)
  | some m =>
    match agendaResult with
    | .error e => (handleWorkflowFailure meetingId "DOWNLOADED" e, some e)
    | .ok agendaData =>
      let chaptersText := generateYouTubeChapters m.title m.date agendaData.agendaItems
      let writes := [Effect.writeArtifact "derived_chapters" meetingId,
                     Effect.writeArtifact "derived_metadata" meetingId]
      let audioWrites :=
        match audioResult with
        | .ok _ => [Effect.writeArtifact "derived_audio" meetingId]
        | .error _ => []
      match advanceWorkflow meetingId "DOWNLOADED" (extractPatch chaptersText) with
      | .ok advEffs => (writes ++ audioWrites ++ advEffs, none)
      | .error e =>
        (writes ++ audioWrites ++ handleWorkflowFailure meetingId "DOWNLOADED" e, some e)

/-- processUploadJob (upload worker, expects EXTRACTED): load the meeting
(absence throws inside uploadMeetingToYouTube), read the chapters file
(absence tolerated), upload to the external host (`ytResult` returns the
url and video id), and advance from EXTRACTED; any error triggers
handleWorkflowFailure and is rethrown.  The worker performs no check of
the meeting's phase. -/
def processUploadJob (meetingId : String) (meeting : Option MeetingRow)
    (chaptersFile : Option String) (ytResult : Except String (String × String)) :
    List Effect × Option String :=
  match meeting with
  | none =>
    let e := notFoundMsg meetingId
    (handleWorkflowFailure meetingId "EXTRACTED" e, some e)
  | some _m =>
    match ytResult with
    | .error e => (handleWorkflowFailure meetingId "EXTRACTED" e, some e)
    | .ok yt =>
      match advanceWorkflow meetingId "EXTRACTED" (uploadPatch yt.1 yt.2) with
      | .ok advEffs => (advEffs, none)
      | .error e => (handleWorkflowFailure meetingId "EXTRACTED" e, some e)

/-- processDiarizeJob (diarize worker, expects UPLOADED): load the
meeting; absence or a state other than UPLOADED throws a descriptive
error before any artifact is produced; otherwise run the external
diarizer (`whisperResult`), write DERIVED_DIARIZED and advance from
UPLOADED.  Every error triggers handleWorkflowFailure and is rethrown. -/
def processDiarizeJob (meetingId : String) (meeting : Option MeetingRow)
    (whisperResult : Except String Unit) : List Effect × Option String :=
  match meeting with
  | none =>
    let e := notFoundMsg meetingId
    (handleWorkflowFailure meetingId "UPLOADED" e, some e)
  | some m =>
    if m.state != "UPLOADED" then
      let e := notUploadedMsg meetingId m.state
      (handleWorkflowFailure meetingId "UPLOADED" e, some e)
    else
      match whisperResult with
      | .error e => (handleWorkflowFailure meetingId "UPLOADED" e, some e)
      | .ok _ =>
        let writes := [Effect.writeArtifact "derived_diarized" meetingId]
        match advanceWorkflow meetingId "UPLOADED" emptyPatch with
        | .ok advEffs => (writes ++ advEffs, none)
        | .error e => (writes ++ handleWorkflowFailure meetingId "UPLOADED" e, some e)

/-! ## Concrete sample data used to instantiate theorems -/

/-- The patch keys recognized by updateMeetingState. -/
def recognizedKeys : List String :=
  ["video_path", "agenda_data", "chapters_text", "youtube_url", "error"]

/-- A fetched meeting whose id matches sampleRow. -/
def fm1 : FetchedMeeting :=
  { id := "m1", title := "City Commission", date := "2025/06/05 7:00 PM"
    meeting_url := "https://example.test/Meeting.aspx?Id=m1" }

/-- A fetched meeting absent from the sample store. -/
def fm2 : FetchedMeeting :=
  { id := "m2", title := "City Plan Board", date := "2025/06/12 6:00 PM"
    meeting_url := "https://example.test/Meeting.aspx?Id=m2" }

/-- sampleRow still in the DISCOVERED phase. -/
def discoveredRow : MeetingRow :=
  { sampleRow with state := "DISCOVERED" }

/-- A small agenda with one timestamped item. -/
def sampleAgenda : AgendaData :=
  { agendaItems := [mkAgendaItem [⟨1, 5000, 65000⟩] 1 "Item A"] }

/-- The agenda item built from a bookmark whose TimeStart is exactly 0
milliseconds. -/
def zeroItem : AgendaItem :=
  mkAgendaItem [⟨1, 0, 60000⟩] 1 "Item A"

/-! ## Theorems -/

/-- C1: for every meetingId and field patch, advanceWorkflow writes the
transition table's successor phase together with the patch to the state
store in one update and enqueues {meetingId} under job id
"<nextQueue>-<meetingId>" on the queue that drives the next phase's
transition: extract after DISCOVERED, upload after DOWNLOADED, diarize
after EXTRACTED.  The phase reached from UPLOADED is the terminal
DIARIZED, whose transition no queue drives, so only the update is
performed there; for the terminal phases DIARIZED and FAILED neither the
update nor any enqueue is performed. -/
theorem C1_advanceWorkflow_follows_transition_table (meetingId : String)
    (patch : String → JSValue) :
    advanceWorkflow meetingId "DISCOVERED" patch =
      .ok [Effect.update meetingId "DOWNLOADED" patch,
           Effect.enqueue "extract" ("extract-" ++ meetingId) meetingId]
  ∧ advanceWorkflow meetingId "DOWNLOADED" patch =
      .ok [Effect.update meetingId "EXTRACTED" patch,
           Effect.enqueue "upload" ("upload-" ++ meetingId) meetingId]
  ∧ advanceWorkflow meetingId "EXTRACTED" patch =
      .ok [Effect.update meetingId "UPLOADED" patch,
           Effect.enqueue "diarize" ("diarize-" ++ meetingId) meetingId]
  ∧ advanceWorkflow meetingId "UPLOADED" patch =
      .ok [Effect.update meetingId "DIARIZED" patch]
  ∧ advanceWorkflow meetingId "DIARIZED" patch = .ok []
  ∧ advanceWorkflow meetingId "FAILED" patch = .ok [] :=
  ⟨rfl, rfl, rfl, rfl, rfl, rfl⟩

/-- C2: the failure phase is NOT durably recorded.  handleWorkflowFailure
passes failed_at_state in its patch, but updateMeetingState recognizes
only video_path, agenda_data, chapters_text, youtube_url and error, and
the meetings schema has no failed_at_state column — so failing the same
meeting at two different phases stores identical rows.  Only the FAILED
state and the error message survive. -/
theorem C2_failedAtPhase_not_recorded :
    handleWorkflowFailureRow sampleRow "DOWNLOADED" "boom" "t1" =
      handleWorkflowFailureRow sampleRow "UPLOADED" "boom" "t1"
  ∧ (handleWorkflowFailureRow sampleRow "DOWNLOADED" "boom" "t1").state = "FAILED"
  ∧ (handleWorkflowFailureRow sampleRow "DOWNLOADED" "boom" "t1").error =
      JSValue.vstr "boom" :=
  ⟨rfl, rfl, rfl⟩

/-- C3: at the failing input — a single agenda item whose bookmark starts
at exactly 0 milliseconds — the generated chapter description is not the
claimed "00:00:00 Item A" line: formatTime treats the falsy 0 as missing
and returns null, so the item's line renders as "null Item A" and a
spurious Pre-meeting line is prepended. -/
theorem C3_chapter_generation_at_zero_timestamp :
    generateYouTubeChapters "City Commission" "2025/06/05 7:00 PM" [zeroItem] =
      "City Commission - 2025-06-05\n\nChapters:\n00:00:00 Pre-meeting\nnull Item A\n"
  ∧ generateYouTubeChapters "City Commission" "2025/06/05 7:00 PM" [zeroItem] ≠
      "City Commission - 2025-06-05\n\nChapters:\n00:00:00 Item A\n" := by
  exact ⟨rfl, by decide⟩

/-- C7: at the failing input — a bookmark with TimeStart exactly 0 paired
with item 1, and a bookmark at 5000 ms paired with item 2 — the sort
comparator `(a.timeStart || Infinity)` treats the falsy 0 as Infinity,
so the 0-millisecond item sorts last instead of first (and its startTime
is null instead of "00:00:00"). -/
theorem C7_zero_timestamp_sorts_last :
    extractAgendaWithTimestamps [⟨1, 0, 1000⟩, ⟨2, 5000, 6000⟩]
        [(1, "Item A"), (2, "Item B")] =
      [{ id := 2, title := "Item B", timeStart := some 5000, timeEnd := some 6000,
         startTime := some "00:00:05", endTime := some "00:00:06",
         durationSeconds := some 1 },
       { id := 1, title := "Item A", timeStart := some 0, timeEnd := some 1000,
         startTime := none, endTime := some "00:00:01",
         durationSeconds := some 1 }] := by
  decide

/-- C5 counterexample: a transient agenda-fetch failure in the extract
worker does NOT leave the state store unchanged — the catch block calls
handleWorkflowFailure, which updates the meeting to FAILED, before the
error is rethrown to the queue. -/
theorem C5_transient_failure_changes_store :
    processExtractJob "m1" (some sampleRow) (.error "ETIMEDOUT") (.ok ())
      = ([Effect.update "m1" "FAILED" (failurePatch "ETIMEDOUT" "DOWNLOADED")],
         some "ETIMEDOUT")
  ∧ (updateMeetingState sampleRow "FAILED"
        (failurePatch "ETIMEDOUT" "DOWNLOADED") "t1").state ≠ sampleRow.state := by
  exact ⟨rfl, by decide⟩

/-- C5 amended: every failure raised while the extract or upload worker
produces its artifacts propagates to the queue, but the state store is
changed by the failed attempt: the worker's single failure boundary
records phase FAILED together with the error message. -/
theorem C5_failure_propagates_and_marks_failed (meetingId e st now : String)
    (row : MeetingRow) (au : Except String Unit) (ch : Option String) :
    processExtractJob meetingId (some row) (.error e) au
      = (handleWorkflowFailure meetingId "DOWNLOADED" e, some e)
  ∧ processUploadJob meetingId (some row) ch (.error e)
      = (handleWorkflowFailure meetingId "EXTRACTED" e, some e)
  ∧ (updateMeetingState row "FAILED" (failurePatch e st) now).state = "FAILED" :=
  ⟨rfl, rfl, rfl⟩

/-- C9 counterexample: sanitize is total, but on the empty string its
output is the empty string, which does not match ^[A-Za-z0-9_]+$ (the
anchored + requires at least one character). -/
theorem C9_sanitize_empty_not_plus :
    sanitize "" = "" ∧ ¬ matchesWordPlus (sanitize "") := by
  decide

/-- Character list of the sanitizer's output. -/
theorem data_sanitize (s : String) :
    (sanitize s).data = s.data.map (fun c => if isAlphaNumChar c then c else '_') :=
  rfl

/-- Every character the sanitizer emits is in [A-Za-z0-9_]. -/
theorem sanitize_chars (s : String) :
    ∀ c ∈ (sanitize s).data, isWordChar c = true := by
  intro c hc
  rw [data_sanitize] at hc
  obtain ⟨a, _, rfl⟩ := List.mem_map.mp hc
  cases h : isAlphaNumChar a <;> simp [isWordChar, h]

/-- C9 amended: sanitize is a total, length-preserving function whose
output always matches ^[A-Za-z0-9_]*$ — every character outside
[A-Za-z0-9] is replaced by an underscore — and matches ^[A-Za-z0-9_]+$
for every nonempty input.  On the empty string it returns the empty
string, which the anchored + of the claim's regex does not accept. -/
theorem C9_sanitize_total (s : String) :
    (sanitize s).data.length = s.data.length
  ∧ (∀ c ∈ (sanitize s).data, isWordChar c = true)
  ∧ (s.data ≠ [] → matchesWordPlus (sanitize s)) := by
  refine ⟨by rw [data_sanitize]; exact List.length_map _ _, sanitize_chars s, ?_⟩
  intro h
  refine ⟨?_, sanitize_chars s⟩
  rw [data_sanitize]
  simpa using h

/-- C9 witness: the amended theorem applied to the concrete nonempty
input "a-b!". -/
theorem C9_sanitize_total_witness :
    ("a-b!" : String).data ≠ [] ∧ matchesWordPlus (sanitize "a-b!") :=
  ⟨by decide, (C9_sanitize_total "a-b!").2.2 (by decide)⟩

/-- C10: updateMeetingState changes only state, updated_at and the five
recognized patch keys; a recognized key with a falsy value (empty
string, 0, null, undefined) is silently not written; and the result
depends only on the recognized keys, so any unrecognized key — such as
failed_at_state — is silently ignored rather than stored or rejected. -/
theorem C10_updateMeetingState_frame (row : MeetingRow) (state : String)
    (patch : String → JSValue) (now : String) :
    ((updateMeetingState row state patch now).id = row.id
      ∧ (updateMeetingState row state patch now).title = row.title
      ∧ (updateMeetingState row state patch now).date = row.date
      ∧ (updateMeetingState row state patch now).meeting_url = row.meeting_url
      ∧ (updateMeetingState row state patch now).has_video = row.has_video
      ∧ (updateMeetingState row state patch now).created_at = row.created_at)
  ∧ ((patch "video_path").truthy = false →
      (updateMeetingState row state patch now).video_path = row.video_path)
  ∧ ((patch "agenda_data").truthy = false →
      (updateMeetingState row state patch now).agenda_data = row.agenda_data)
  ∧ ((patch "chapters_text").truthy = false →
      (updateMeetingState row state patch now).chapters_text = row.chapters_text)
  ∧ ((patch "youtube_url").truthy = false →
      (updateMeetingState row state patch now).youtube_url = row.youtube_url)
  ∧ ((patch "error").truthy = false →
      (updateMeetingState row state patch now).error = row.error)
  ∧ (∀ patch2 : String → JSValue,
      (∀ k ∈ recognizedKeys, patch2 k = patch k) →
      updateMeetingState row state patch2 now = updateMeetingState row state patch now) := by
  refine ⟨⟨rfl, rfl, rfl, rfl, rfl, rfl⟩, ?_, ?_, ?_, ?_, ?_, ?_⟩
  · intro h; simp [updateMeetingState, h]
  · intro h; simp [updateMeetingState, h]
  · intro h; simp [updateMeetingState, h]
  · intro h; simp [updateMeetingState, h]
  · intro h; simp [updateMeetingState, h]
  · intro patch2 h
    have h1 := h "video_path" (by simp [recognizedKeys])
    have h2 := h "agenda_data" (by simp [recognizedKeys])
    have h3 := h "chapters_text" (by simp [recognizedKeys])
    have h4 := h "youtube_url" (by simp [recognizedKeys])
    have h5 := h "error" (by simp [recognizedKeys])
    simp [updateMeetingState, h1, h2, h3, h4, h5]

/-- C10 witness: the failure patch, whose unrecognized failed_at_state
key is ignored, stores the same row as the patch holding only the error
message. -/
theorem C10_updateMeetingState_frame_witness :
    updateMeetingState sampleRow "FAILED"
        (fun k => if k = "error" then JSValue.vstr "boom" else JSValue.vundefined) "t1"
      = updateMeetingState sampleRow "FAILED" (failurePatch "boom" "DOWNLOADED") "t1" :=
  (C10_updateMeetingState_frame sampleRow "FAILED"
      (failurePatch "boom" "DOWNLOADED") "t1").2.2.2.2.2.2
    (fun k => if k = "error" then JSValue.vstr "boom" else JSValue.vundefined)
    (by decide)

/-- A find? that succeeds on the first list still succeeds on an
appended list. -/
theorem find?_isSome_append {α : Type} (p : α → Bool) (l1 l2 : List α)
    (h : (l1.find? p).isSome = true) : ((l1 ++ l2).find? p).isSome = true := by
  induction l1 with
  | nil => simp [List.find?] at h
  | cons x xs ih =>
    cases hx : p x with
    | true => simp [List.find?, hx]
    | false =>
      rw [List.find?_cons_of_neg _ (by simp [hx])] at h
      rw [List.cons_append, List.find?_cons_of_neg _ (by simp [hx])]
      exact ih h

/-- A meeting present before insertMeeting is still present after. -/
theorem present_insertMeeting (db : List MeetingRow) (m : FetchedMeeting)
    (now id : String) (h : (getMeetingDb db id).isSome = true) :
    (getMeetingDb (insertMeeting db m now) id).isSome = true := by
  unfold insertMeeting
  cases hg : getMeetingDb db m.id with
  | some r => exact h
  | none => exact find?_isSome_append _ _ _ h

/-- After insertMeeting, the inserted meeting's id is present. -/
theorem present_insertMeeting_self (db : List MeetingRow) (m : FetchedMeeting)
    (now : String) : (getMeetingDb (insertMeeting db m now) m.id).isSome = true := by
  unfold insertMeeting
  cases hg : getMeetingDb db m.id with
  | some r => simp [hg]
  | none =>
    unfold getMeetingDb at hg ⊢
    induction db with
    | nil => simp [List.find?, newMeetingRow]
    | cons x xs ih =>
      cases hx : x.id == m.id with
      | true => rw [List.find?_cons_of_pos _ (by simp [hx])] at hg; cases hg
      | false =>
        rw [List.find?_cons_of_neg _ (by simp [hx])] at hg
        rw [List.cons_append, List.find?_cons_of_neg _ (by simp [hx])]
        exact ih hg

/-- Presence is preserved by a discovery run. -/
theorem present_runDiscovery (ms : List FetchedMeeting) (db : List MeetingRow)
    (now id : String) (h : (getMeetingDb db id).isSome = true) :
    (getMeetingDb (runDiscovery db ms now).1 id).isSome = true := by
  induction ms generalizing db with
  | nil => exact h
  | cons m rest ih =>
    unfold runDiscovery
    cases hg : getMeetingDb db m.id with
    | some r => simp only [hg]; exact ih db h
    | none => simp only [hg]; exact ih _ (present_insertMeeting db m now id h)

/-- After a discovery run, every fetched meeting's id is present. -/
theorem all_present_runDiscovery (ms : List FetchedMeeting) (db : List MeetingRow)
    (now : String) :
    ∀ m ∈ ms, (getMeetingDb (runDiscovery db ms now).1 m.id).isSome = true := by
  induction ms generalizing db with
  | nil => simp
  | cons m rest ih =>
    intro x hx
    unfold runDiscovery
    cases hg : getMeetingDb db m.id with
    | some r =>
      simp only [hg]
      rcases List.mem_cons.mp hx with rfl | hx2
      · exact present_runDiscovery rest db now x.id (by simp [hg])
      · exact ih db x hx2
    | none =>
      simp only [hg]
      rcases List.mem_cons.mp hx with rfl | hx2
      · exact present_runDiscovery rest _ now x.id (present_insertMeeting_self db x now)
      · exact ih _ x hx2

/-- A discovery run over meetings that are all already present inserts
nothing, enqueues nothing and leaves the table unchanged. -/
theorem runDiscovery_skips_present (ms : List FetchedMeeting) (db : List MeetingRow)
    (now : String) (h : ∀ m ∈ ms, (getMeetingDb db m.id).isSome = true) :
    runDiscovery db ms now = (db, []) := by
  induction ms with
  | nil => rfl
  | cons m rest ih =>
    have hm := h m (by simp)
    unfold runDiscovery
    cases hg : getMeetingDb db m.id with
    | none => rw [hg] at hm; cases hm
    | some r =>
      simp only [hg]
      exact ih (fun x hx => h x (by simp [hx]))

/-- A meeting already present sees neither an insert nor an enqueue. -/
theorem runDiscovery_no_effects_for_present (ms : List FetchedMeeting)
    (db : List MeetingRow) (now id : String)
    (h : (getMeetingDb db id).isSome = true) :
    ∀ e ∈ (runDiscovery db ms now).2, e.concernsId ≠ id := by
  induction ms generalizing db with
  | nil => simp [runDiscovery]
  | cons m rest ih =>
    unfold runDiscovery
    cases hg : getMeetingDb db m.id with
    | some r => simp only [hg]; exact ih db h
    | none =>
      simp only [hg]
      have hne : m.id ≠ id := by
        intro he
        rw [he] at hg
        rw [hg] at h
        cases h
      intro e he
      rcases List.mem_cons.mp he with rfl | he2
      · simpa [Effect.concernsId] using hne
      · rcases List.mem_cons.mp he2 with rfl | he3
        · simpa [Effect.concernsId] using hne
        · exact ih _ (present_insertMeeting db m now id h) e he3

/-- C6: discovery is idempotent.  A second run over the same fetched
meetings immediately after a first run inserts zero rows and enqueues
zero download jobs (it returns the table unchanged with an empty effect
trace), and a meeting already present in the store contributes no
insert and no enqueue to a run's effect trace. -/
theorem C6_discovery_idempotent (db : List MeetingRow) (ms : List FetchedMeeting)
    (now now2 : String) :
    runDiscovery (runDiscovery db ms now).1 ms now2 = ((runDiscovery db ms now).1, [])
  ∧ ∀ id, (getMeetingDb db id).isSome = true →
      ∀ e ∈ (runDiscovery db ms now).2, e.concernsId ≠ id := by
  constructor
  · exact runDiscovery_skips_present ms _ now2 (all_present_runDiscovery ms db now)
  · intro id h
    exact runDiscovery_no_effects_for_present ms db now id h

/-- C6 witness: with "m1" already stored and "m1", "m2" fetched, the
second discovery run performs nothing, and no effect of the first run
concerns the already-present "m1". -/
theorem C6_discovery_idempotent_witness :
    runDiscovery (runDiscovery [sampleRow] [fm1, fm2] "t0").1 [fm1, fm2] "t1"
      = ((runDiscovery [sampleRow] [fm1, fm2] "t0").1, [])
  ∧ ∀ e ∈ (runDiscovery [sampleRow] [fm1, fm2] "t0").2, e.concernsId ≠ "m1" :=
  ⟨(C6_discovery_idempotent [sampleRow] [fm1, fm2] "t0" "t1").1,
   (C6_discovery_idempotent [sampleRow] [fm1, fm2] "t0" "t1").2 "m1" (by decide)⟩

/-- A valid storage type always resolves to a path. -/
theorem pathFor_ok_of_valid (root id ty : String)
    (h : isValidStorageType ty = true) : ∃ p, pathFor root ty id = .ok p := by
  have h2 : ty ∈ StorageTypesList := by
    simpa [isValidStorageType] using h
  fin_cases h2 <;> exact ⟨_, rfl⟩

/-- C8: the upload endpoint rejects an invalid storage kind with HTTP 400,
an invalid meetingId (anything not matching ^[A-Za-z0-9_-]{1,100}$, to
which isValidMeetingId is equivalent) with HTTP 400, and a resolved
destination outside the storage root with HTTP 403; every rejection
unlinks the temporary upload file and writes nothing under the root; on
success the response is success = true with the stored path relative to
the root. -/
theorem C8_upload_validation (root : String) (pathSafe : String → Bool)
    (ty meetingId : String) :
    (isValidStorageType ty = false →
      uploadHandler root pathSafe ty meetingId =
        { status := 400, body := .errorResp "Invalid storage type"
          tempUnlinked := true, written := none })
  ∧ (isValidStorageType ty = true → isValidMeetingId meetingId = false →
      uploadHandler root pathSafe ty meetingId =
        { status := 400, body := .errorResp "Invalid meeting ID format"
          tempUnlinked := true, written := none })
  ∧ (∀ dest, isValidStorageType ty = true → isValidMeetingId meetingId = true →
      pathFor root ty meetingId = .ok dest → pathSafe dest = false →
      uploadHandler root pathSafe ty meetingId =
        { status := 403, body := .errorResp "Access denied"
          tempUnlinked := true, written := none })
  ∧ (∀ dest, isValidStorageType ty = true → isValidMeetingId meetingId = true →
      pathFor root ty meetingId = .ok dest → pathSafe dest = true →
      uploadHandler root pathSafe ty meetingId =
        { status := 200, body := .successResp (relativeTo root dest)
          tempUnlinked := false, written := some dest })
  ∧ (isValidMeetingId meetingId = true ↔
      1 ≤ meetingId.data.length ∧ meetingId.data.length ≤ 100
        ∧ ∀ c ∈ meetingId.data, isMeetingIdChar c = true) := by
  refine ⟨?_, ?_, ?_, ?_, ?_⟩
  · intro h; simp [uploadHandler, h]
  · intro h1 h2; simp [uploadHandler, h1, h2]
  · intro dest h1 h2 h3 h4
    simp [uploadHandler, h1, h2, h3, h4]
  · intro dest h1 h2 h3 h4
    simp [uploadHandler, h1, h2, h3, h4]
  · unfold isValidMeetingId
    constructor
    · intro h
      by_cases h0 : meetingId.data.length = 0
      · rw [if_pos h0] at h; cases h
      · rw [if_neg h0] at h
        by_cases h100 : meetingId.data.length > 100
        · rw [if_pos h100] at h; cases h
        · rw [if_neg h100] at h
          exact ⟨by omega, by omega, List.all_eq_true.mp h⟩
    · intro ⟨h1, h2, h3⟩
      rw [if_neg (by omega), if_neg (by omega)]
      exact List.all_eq_true.mpr h3

/-- C8 witness: a valid upload of kind raw_video for meeting m1 with a
destination inside the root succeeds and reports the root-relative
path. -/
theorem C8_upload_validation_witness :
    uploadHandler "/data" (fun _ => true) "raw_video" "m1" =
      { status := 200, body := .successResp "raw/videos/m1.mp4"
        tempUnlinked := false, written := some "/data/raw/videos/m1.mp4" } := by
  have h := (C8_upload_validation "/data" (fun _ => true) "raw_video" "m1").2.2.2.1
    "/data/raw/videos/m1.mp4" (by decide) (by decide) rfl rfl
  rw [h]
  decide

/-- C4 counterexample: the extract worker, given a meeting whose phase is
DISCOVERED rather than its expected DOWNLOADED, performs no phase check:
it produces its chapter and metadata artifacts, advances the meeting,
and completes the job instead of failing it. -/
theorem C4_extract_ignores_phase_mismatch :
    discoveredRow.state = "DISCOVERED"
  ∧ processExtractJob "m1" (some discoveredRow) (.ok sampleAgenda) (.ok ())
      = ([Effect.writeArtifact "derived_chapters" "m1",
          Effect.writeArtifact "derived_metadata" "m1",
          Effect.writeArtifact "derived_audio" "m1",
          Effect.update "m1" "EXTRACTED"
            (extractPatch (generateYouTubeChapters discoveredRow.title
              discoveredRow.date sampleAgenda.agendaItems)),
          Effect.enqueue "upload" ("upload-" ++ "m1") "m1"], none) :=
  ⟨rfl, rfl⟩

/-- C4 amended: every worker fails the job with a descriptive error and
produces no artifacts when the meeting is absent from the state store,
and the diarize worker additionally fails when the meeting's phase
differs from UPLOADED, naming the mismatch; the download, extract and
upload workers perform no phase check — their behaviour is identical for
every stored phase. -/
theorem C4_worker_preconditions (meetingId : String) (row : MeetingRow)
    (dl au wr : Except String Unit) (ag : Except String AgendaData)
    (ch : Option String) (yt : Except String (String × String)) :
    processDownloadJob meetingId none dl =
      (handleWorkflowFailure meetingId "DISCOVERED" (notFoundMsg meetingId),
       some (notFoundMsg meetingId))
  ∧ processExtractJob meetingId none ag au =
      (handleWorkflowFailure meetingId "DOWNLOADED" (notFoundMsg meetingId),
       some (notFoundMsg meetingId))
  ∧ processUploadJob meetingId none ch yt =
      (handleWorkflowFailure meetingId "EXTRACTED" (notFoundMsg meetingId),
       some (notFoundMsg meetingId))
  ∧ processDiarizeJob meetingId none wr =
      (handleWorkflowFailure meetingId "UPLOADED" (notFoundMsg meetingId),
       some (notFoundMsg meetingId))
  ∧ (row.state ≠ "UPLOADED" →
      processDiarizeJob meetingId (some row) wr =
        (handleWorkflowFailure meetingId "UPLOADED" (notUploadedMsg meetingId row.state),
         some (notUploadedMsg meetingId row.state)))
  ∧ (∀ st, processDownloadJob meetingId (some row) dl =
      processDownloadJob meetingId (some { row with state := st }) dl)
  ∧ (∀ st, processExtractJob meetingId (some row) ag au =
      processExtractJob meetingId (some { row with state := st }) ag au)
  ∧ (∀ st, processUploadJob meetingId (some row) ch yt =
      processUploadJob meetingId (some { row with state := st }) ch yt) := by
  refine ⟨rfl, rfl, rfl, rfl, ?_, fun st => rfl, fun st => rfl, fun st => rfl⟩
  intro h
  simp only [processDiarizeJob, bne_iff_ne, ne_eq, h, not_false_eq_true, if_true]

/-- C4 witness: the diarize worker fails a job for the concrete meeting
m1 stuck in DISCOVERED with the descriptive mismatch error. -/
theorem C4_worker_preconditions_witness :
    processDiarizeJob "m1" (some discoveredRow) (.ok ()) =
      (handleWorkflowFailure "m1" "UPLOADED" (notUploadedMsg "m1" discoveredRow.state),
       some (notUploadedMsg "m1" discoveredRow.state)) :=
  (C4_worker_preconditions "m1" discoveredRow (.ok ()) (.ok ()) (.ok ())
      (.ok sampleAgenda) none (.ok ("u", "v"))).2.2.2.2.1 (by decide)

end GnvMeetings
